import Mathlib

/-
Verification of the backup-cycle orchestration engine (src/main.py).

The Python program is shallowly embedded: every remote or local side effect
is supplied by an explicit environment value (the outcome of the ssh
connect, the stdout/stderr of each remote command, the outcome of the scp
transfer, the outcome of the webhook post, the byte size reported by the
local directory walk), and each function returns its Python return value
together with a trace of the externally visible events it performs, in
order.  Python floats are modelled as rationals, Python ints as Int/Nat,
raised exceptions as Except values.
-/

/-- One mention target (dataclass Mention in main.py): an id plus a flag
distinguishing role mentions from individual mentions. -/
structure Mention where
  id : String
  is_role : Bool
deriving DecidableEq, Repr

/-- Mention.__str__ in main.py: an at-reference tag, with an ampersand mark
only for role mentions. -/
def Mention.str (m : Mention) : String :=
  "<@" ++ (if m.is_role then "&" else "") ++ m.id ++ ">"

/-- The process-lifetime configuration (dataclass Config in main.py).
The source field backup_name_prefix is called backup_name_stem here. -/
structure Config where
  iteration_time : Int
  error_iteration_time : Int
  webhook : String
  server_host : String
  server_user : String
  server_use_host_keys : Bool
  server_password : String
  server_directory : String
  server_before_save_command : String
  server_after_save_command : String
  backup_name_stem : String
  backup_directory : String
  backup_allowed_gigabytes : ℚ
  backup_warning_ratio : ℚ
  warning_mentions : List Mention
  error_mentions : List Mention
deriving Repr

/-- get_mentions in main.py: the empty list renders as the empty string,
a non-empty list as a newline followed by the rendered tags joined
with a comma and a space. -/
def get_mentions (mentions : List Mention) : String :=
  if mentions.length = 0 then ""
  else "\n" ++ String.intercalate ", " (mentions.map Mention.str)

/-- Round a rational to the nearest integer, ties to the nearest even
integer: the rounding Python applies in round(x, n). -/
def round_half_to_even (q : ℚ) : ℤ :=
  let fl := Rat.floor q
  let fr := q - (fl : ℚ)
  if fr < 1 / 2 then fl
  else if 1 / 2 < fr then fl + 1
  else if fl % 2 = 0 then fl else fl + 1

/-- round(q, 3) of main.py line 127. -/
def py_round_3 (q : ℚ) : ℚ :=
  (round_half_to_even (q * 1000) : ℚ) / 1000

/-- size / (1024 ** 3) in check_local. -/
def gb_of_bytes (size : Nat) : ℚ :=
  (size : ℚ) / 1024 ^ 3

/-- gb_size / config.backup_allowed_gigabytes in check_local. -/
def local_ratio (config : Config) (size : Nat) : ℚ :=
  gb_of_bytes size / config.backup_allowed_gigabytes

/-- The error string check_local returns when the quota is reached. -/
def quota_error_message (config : Config) : String :=
  "Backup directory has reached the maximum size of "
    ++ toString config.backup_allowed_gigabytes ++ " GB"

/-- The warning string check_local returns above the warning ratio. -/
def ratio_warning_message (config : Config) (r : ℚ) : String :=
  "Backup folder has ratio of " ++ toString (py_round_3 r)
    ++ " of the maximum size of " ++ toString config.backup_allowed_gigabytes ++ " GB"

/-- check_local in main.py.  The get_size call on the backup directory is
supplied as size_result: Except.error models the OSError branch, Except.ok
the byte count the directory walk returned. -/
def check_local (config : Config) (size_result : Except String Nat) :
    Option String × Option String :=
  match size_result with
  | Except.error e => (none, some ("Could not read backup directory: " ++ e))
  | Except.ok size =>
    let ratio := local_ratio config size
    if 1 ≤ ratio then
      (none, some (quota_error_message config))
    else if config.backup_warning_ratio < ratio then
      (some (ratio_warning_message config ratio), none)
    else
      (none, none)

/-- A local filesystem entry: a regular file with its byte size, a symbolic
link (with the flag saying whether its target is a directory, which decides
the dirnames/filenames partition os.walk makes via os.path.isdir), or a
directory with its children. -/
inductive FSEntry where
  | file (size : Nat)
  | symlink (to_dir : Bool)
  | dir (children : List FSEntry)

/-- os.path.isdir: follows links, so a link whose target is a directory
counts as a directory for the dirnames/filenames split. -/
def dir_entry : FSEntry → Bool
  | FSEntry.dir _ => true
  | FSEntry.symlink b => b
  | FSEntry.file _ => false

/-- os.path.islink. -/
def link_entry : FSEntry → Bool
  | FSEntry.symlink _ => true
  | _ => false

/-- os.path.getsize on a non-link entry. -/
def entry_size : FSEntry → Nat
  | FSEntry.file n => n
  | _ => 0

/-- The tuples os.walk yields below a directory with the given children,
keeping only the filenames component of each tuple: os.walk is called with
followlinks left False, so it does not descend into links, and entries for
which os.path.isdir holds are left out of filenames. -/
def walk_descend : List FSEntry → List (List FSEntry)
  | [] => []
  | FSEntry.dir cs :: rest =>
      (cs.filter (fun e => !dir_entry e) :: walk_descend cs) ++ walk_descend rest
  | FSEntry.file _ :: rest => walk_descend rest
  | FSEntry.symlink _ :: rest => walk_descend rest

/-- All filenames components os.walk(start_path) yields when start_path is
a directory with the given children. -/
def walk (root : List FSEntry) : List (List FSEntry) :=
  root.filter (fun e => !dir_entry e) :: walk_descend root

/-- get_size in main.py: walk the tree from a directory with the given
children and sum os.path.getsize over every filename that is not a
symbolic link. -/
def get_size (root : List FSEntry) : Nat :=
  ((walk root).map (fun fnames =>
    ((fnames.filter (fun f => !link_entry f)).map entry_size).sum)).sum

/-- The specification measure for the capacity check: the sum of the sizes
of the regular files reachable from a directory with the given children
without following symbolic links. -/
def regular_size_list : List FSEntry → Nat
  | [] => 0
  | FSEntry.file n :: rest => n + regular_size_list rest
  | FSEntry.symlink _ :: rest => regular_size_list rest
  | FSEntry.dir cs :: rest => regular_size_list cs + regular_size_list rest

/-- The contribution of one directory level to get_size. -/
def top_files_sum (es : List FSEntry) : Nat :=
  (((es.filter (fun e => !dir_entry e)).filter
      (fun f => !link_entry f)).map entry_size).sum


/-- Decidable equality for Except values (used to evaluate concrete runs). -/
instance {e a : Type} [DecidableEq e] [DecidableEq a] : DecidableEq (Except e a) := fun x y =>
  match x, y with
  | Except.ok u, Except.ok v =>
    match decEq u v with
    | isTrue h => isTrue (congrArg Except.ok h)
    | isFalse h => isFalse (fun hh => h (Except.ok.inj hh))
  | Except.error u, Except.error v =>
    match decEq u v with
    | isTrue h => isTrue (congrArg Except.error h)
    | isFalse h => isFalse (fun hh => h (Except.error.inj hh))
  | Except.ok _, Except.error _ => isFalse (fun hh => Except.noConfusion hh)
  | Except.error _, Except.ok _ => isFalse (fun hh => Except.noConfusion hh)

/-- The wall-clock instant datetime.now() returned, at the minute
granularity the archive name uses. -/
structure Timestamp where
  year : Nat
  month : Nat
  day : Nat
  hour : Nat
  minute : Nat
deriving DecidableEq, Repr

/-- Zero-pad a field to two digits, as strftime does for %m %d %H %M. -/
def pad2 (n : Nat) : String :=
  if n < 10 then "0" ++ toString n else toString n

/-- strftime("%Y-%m-%d_%H_%M") of main.py line 75. -/
def timestamp_string (t : Timestamp) : String :=
  toString t.year ++ "-" ++ pad2 t.month ++ "-" ++ pad2 t.day
    ++ "_" ++ pad2 t.hour ++ "_" ++ pad2 t.minute

/-- Split a character list at every slash, Python str.split("/") style:
consecutive separators yield empty components. -/
def split_slash_aux (cur : List Char) : List Char → List String
  | [] => [String.mk cur.reverse]
  | c :: rest =>
      if c = '/' then String.mk cur.reverse :: split_slash_aux [] rest
      else split_slash_aux (c :: cur) rest

/-- path.split("/") on a string. -/
def split_slash (path : String) : List String :=
  split_slash_aux [] path.toList

/-- The number of leading slashes posixpath.normpath preserves: one for a
single or three-or-more leading slashes, two for exactly two. -/
def leading_slashes : List Char → Nat
  | '/' :: '/' :: '/' :: _ => 1
  | '/' :: '/' :: _ => 2
  | '/' :: _ => 1
  | _ => 0

/-- os.path.normpath for POSIX paths, as posixpath.normpath computes it:
drop empty and single-dot components, resolve double-dot components
against the stack, keep one or two leading slashes. -/
def normpath (path : String) : String :=
  if path = "" then "." else
  let initial_slashes : Nat := leading_slashes path.toList
  let comps := split_slash path
  let new_comps := comps.foldl (fun acc comp =>
    if comp = "" ∨ comp = "." then acc
    else if comp ≠ ".." ∨ (initial_slashes = 0 ∧ acc = [])
        ∨ (acc ≠ [] ∧ acc.getLast? = some "..") then acc ++ [comp]
    else if acc ≠ [] then acc.dropLast
    else acc) []
  let joined := String.intercalate "/" new_comps
  let res :=
    (if initial_slashes = 2 then "//" else if initial_slashes = 1 then "/" else "")
      ++ joined
  if res = "" then "." else res

/-- The remote world one backup cycle talks to: the outcome of ssh.connect
(Except.error carries the text of the OSError/SSHException raised on a
network or authentication failure), the stdout/stderr streams each remote
command line produces, and the outcome of the one scp.get transfer
(Except.error carries the text of the SCPException/OSError). -/
structure RemoteEnv where
  connect : Except String Unit
  exec : String → String × String
  scp_get : Except String Unit

/-- The externally visible events of one backup cycle, in order: the
ssh.connect attempt, each remote command line handed to ssh.exec_command
(both the captured ones and the fire-and-forget cleanup), the scp.get
transfer with its remote path and local directory, the close of the scp
sub-channel, and the close of the ssh session. -/
inductive REvent where
  | connectAttempt
  | cmd (command : String)
  | scpGet (remotePath : String) (localPath : String)
  | scpClose
  | sshClose
deriving DecidableEq, Repr

/-- The cd prelude every remote command reuses (main.py line 70). -/
def cd_command (config : Config) : String :=
  "cd " ++ config.server_directory ++ "/../ && ls -la"

/-- The archive identifier (main.py line 75): configured name stem, a dash,
the minute-resolution timestamp, and the tar.gz suffix. -/
def archive_name_of (config : Config) (now : Timestamp) : String :=
  config.backup_name_stem ++ "-" ++ timestamp_string now ++ ".tar.gz"

/-- The registered best-effort remote cleanup command (main.py line 76). -/
def rm_command (config : Config) (now : Timestamp) : String :=
  cd_command config ++ " && rm " ++ archive_name_of config now

/-- The full pre-hook command line (main.py line 78). -/
def before_command (config : Config) : String :=
  cd_command config ++ " && " ++ config.server_before_save_command

/-- The compress command line (main.py line 83). -/
def tar_command (config : Config) (now : Timestamp) : String :=
  cd_command config ++ " && tar -czf " ++ archive_name_of config now
    ++ " " ++ normpath config.server_directory

/-- The full post-hook command line (main.py line 88). -/
def after_command (config : Config) : String :=
  cd_command config ++ " && " ++ config.server_after_save_command

/-- The transfer step of backup (main.py lines 92-98): the SCPClient
sub-channel is opened and its close registered on the ExitStack, then the
archive is fetched into the local backup directory.  Returns the value the
with-block body produces, the events of the body, and whether the
sub-channel was opened (its close is then part of the unwind). -/
def backup_transfer_step (config : Config) (env : RemoteEnv) (now : Timestamp) :
    (String × Option String) × List REvent × Bool :=
  let remote := config.server_directory ++ "/" ++ archive_name_of config now
  match env.scp_get with
  | Except.error e =>
      (("", some ("Could not copy archive to the local directory "
          ++ config.backup_directory ++ ": " ++ e)),
       [REvent.scpGet remote config.backup_directory], true)
  | Except.ok _ =>
      ((archive_name_of config now, none),
       [REvent.scpGet remote config.backup_directory], true)

/-- The optional post-hook step of backup (main.py lines 87-90). -/
def backup_after_step (config : Config) (env : RemoteEnv) (now : Timestamp) :
    (String × Option String) × List REvent × Bool :=
  if 0 < config.server_after_save_command.length then
    let err := (env.exec (after_command config)).2
    if 0 < err.length then
      (("", some ("Error while executing after_save_command \""
          ++ config.server_after_save_command ++ "\": " ++ err)),
       [REvent.cmd (after_command config)], false)
    else
      let r := backup_transfer_step config env now
      (r.1, REvent.cmd (after_command config) :: r.2.1, r.2.2)
  else backup_transfer_step config env now

/-- The compress step of backup (main.py lines 82-85). -/
def backup_tar_step (config : Config) (env : RemoteEnv) (now : Timestamp) :
    (String × Option String) × List REvent × Bool :=
  let err := (env.exec (tar_command config now)).2
  if 0 < err.length then
    (("", some ("Could not compress backup archive: " ++ err)),
     [REvent.cmd (tar_command config now)], false)
  else
    let r := backup_after_step config env now
    (r.1, REvent.cmd (tar_command config now) :: r.2.1, r.2.2)

/-- The optional pre-hook step of backup (main.py lines 77-80). -/
def backup_before_step (config : Config) (env : RemoteEnv) (now : Timestamp) :
    (String × Option String) × List REvent × Bool :=
  if 0 < config.server_before_save_command.length then
    let err := (env.exec (before_command config)).2
    if 0 < err.length then
      (("", some ("Error while executing before_save_command \""
          ++ config.server_before_save_command ++ "\": " ++ err)),
       [REvent.cmd (before_command config)], false)
    else
      let r := backup_tar_step config env now
      (r.1, REvent.cmd (before_command config) :: r.2.1, r.2.2)
  else backup_tar_step config env now

/-- backup in main.py (lines 56-100).  Returns the (archive_name, error)
pair of the Python function together with the ordered event trace.  The
ExitStack semantics is explicit: ssh.close is registered before connect,
the rm cleanup right after the archive name is computed, scp.close when
the sub-channel is opened; on every exit of the with-block the registered
callbacks run in reverse order, so the trace of any path that passed the
directory listing ends with the optional sub-channel close, then the
remote delete command, then exactly one session close. -/
def backup (config : Config) (env : RemoteEnv) (now : Timestamp) :
    (String × Option String) × List REvent :=
  match env.connect with
  | Except.error e =>
      (("", some ("Error while connecting to " ++ config.server_user ++ "@"
          ++ config.server_host ++ ": " ++ e)),
       [REvent.connectAttempt, REvent.sshClose])
  | Except.ok _ =>
    let err := (env.exec (cd_command config)).2
    if 0 < err.length then
      (("", some ("Could not open server directory \"" ++ config.server_directory
          ++ "\": " ++ err)),
       [REvent.connectAttempt, REvent.cmd (cd_command config), REvent.sshClose])
    else
      let r := backup_before_step config env now
      (r.1,
       [REvent.connectAttempt, REvent.cmd (cd_command config)] ++ r.2.1
         ++ (if r.2.2 then [REvent.scpClose] else [])
         ++ [REvent.cmd (rm_command config now), REvent.sshClose])

/-- The notification transport: what the single aiohttp post of notify does
for a given endpoint and message body.  Except.ok carries the response body
the server returned (any HTTP status: the code never inspects it),
Except.error the text of the exception the transport raised. -/
structure NotifyEnv where
  post : String → String → Except String String

/-- notify in main.py (lines 132-140): always log the message; with an
empty webhook return without delivering; otherwise perform the single post
and log the response.  A transport exception is not caught anywhere in
notify, so it propagates to the caller (the Except.error result). -/
def notify (message : String) (webhook : String) (env : NotifyEnv) :
    Except String (List String) :=
  let log := "LOG: " ++ message
  if webhook.length = 0 then Except.ok [log]
  else
    match env.post webhook message with
    | Except.ok resp => Except.ok [log, resp]
    | Except.error e => Except.error e

/-- One iteration of the main_routine loop up to the backup call (main.py
lines 154-158): run check_local, and only if it reported no error run the
backup executor; otherwise the executor is skipped (its event trace is
empty) and the capacity error is the cycle error. -/
def cycle_outcome (config : Config) (size_result : Except String Nat)
    (renv : RemoteEnv) (now : Timestamp) : (String × Option String) × List REvent :=
  let wr := check_local config size_result
  if wr.2 = none then backup config renv now else (("", wr.2), [])

/-- The notification message main_routine builds (main.py lines 160-166):
the success line with the archive name in backticks, or the error header
with the error mentions and the error text; when a warning is present a
warning block is appended either way. -/
def cycle_message (config : Config) (size_result : Except String Nat)
    (renv : RemoteEnv) (now : Timestamp) : String :=
  let wr := check_local config size_result
  let br := cycle_outcome config size_result renv now
  let base :=
    match br.1.2 with
    | none => "Successful backup! Archive: `" ++ br.1.1 ++ "`"
    | some e => "**ERROR**" ++ get_mentions config.error_mentions ++ "\n" ++ e
  match wr.1 with
  | some w => base ++ "\n\n**WARNING**" ++ get_mentions config.warning_mentions ++ "\n" ++ w
  | none => base

/-- What one scheduler-loop iteration produces when it reaches the sleep. -/
structure CycleResult where
  message : String
  sleep_time : Int
  backup_events : List REvent
  cycle_error : Option String
  logs : List String
deriving DecidableEq, Repr

/-- One full iteration of the main_routine while-loop (main.py lines
153-169): capacity check, conditional backup, message construction,
notify, and the choice of the sleep interval.  The iteration is an Except
because the awaited notify call is not wrapped in any handler: a transport
exception escapes the iteration (and main_routine) instead of reaching
the sleep. -/
def main_step (config : Config) (size_result : Except String Nat)
    (renv : RemoteEnv) (now : Timestamp) (nenv : NotifyEnv) :
    Except String CycleResult :=
  let br := cycle_outcome config size_result renv now
  let message := cycle_message config size_result renv now
  match notify message config.webhook nenv with
  | Except.error e => Except.error e
  | Except.ok logs =>
      Except.ok ⟨message,
        (if br.1.2 = none then config.iteration_time else config.error_iteration_time),
        br.2, br.1.2, logs⟩

/-- A fixed wall-clock instant used by the concrete runs below. -/
def t0 : Timestamp := ⟨2026, 10, 12, 9, 5⟩

/-- A configuration with an empty webhook, no hooks, a 2 GB quota and a 0.5
warning ratio, used by the concrete runs below. -/
def base_config : Config :=
  ⟨5, 1, "", "h", "u", true, "", "/srv", "", "", "mc", "/b", 2, 1/2, [], []⟩

/-- base_config with a non-empty pre-save hook command. -/
def hook_config : Config :=
  ⟨5, 1, "", "h", "u", true, "", "/srv", "stop", "", "mc", "/b", 2, 1/2, [], []⟩

/-- base_config with a configured webhook endpoint. -/
def webhook_config : Config :=
  ⟨5, 1, "https://wh", "h", "u", true, "", "/srv", "", "", "mc", "/b", 2, 1/2, [], []⟩

/-- A remote world in which every operation succeeds and every command is
silent on stderr. -/
def renv_ok : RemoteEnv := ⟨Except.ok (), fun _ => ("", ""), Except.ok ()⟩

/-- A remote world in which exactly the compress command writes to stderr. -/
def renv_tar_fail : RemoteEnv :=
  ⟨Except.ok (),
   fun c => if c = tar_command base_config t0 then ("", "boom") else ("", ""),
   Except.ok ()⟩

/-- A remote world in which exactly the pre-save hook writes to stderr. -/
def renv_hook_fail : RemoteEnv :=
  ⟨Except.ok (),
   fun c => if c = before_command hook_config then ("", "oops") else ("", ""),
   Except.ok ()⟩

/-- A remote world in which the connect itself fails. -/
def renv_down : RemoteEnv :=
  ⟨Except.error "No route to host", fun _ => ("", ""), Except.ok ()⟩

/-- A notification transport that always answers. -/
def nenv_ok : NotifyEnv := ⟨fun _ _ => Except.ok "ok"⟩

/-- A notification transport that always raises. -/
def nenv_down : NotifyEnv := ⟨fun _ _ => Except.error "Cannot connect to host"⟩
/-- The iteration result of the concrete fully successful cycle below. -/
def happy_cycle_result : CycleResult :=
  ⟨"Successful backup! Archive: `mc-2026-10-12_09_05.tar.gz`", 5,
   [REvent.connectAttempt, REvent.cmd "cd /srv/../ && ls -la",
    REvent.cmd "cd /srv/../ && ls -la && tar -czf mc-2026-10-12_09_05.tar.gz /srv",
    REvent.scpGet "/srv/mc-2026-10-12_09_05.tar.gz" "/b", REvent.scpClose,
    REvent.cmd "cd /srv/../ && ls -la && rm mc-2026-10-12_09_05.tar.gz",
    REvent.sshClose],
   none, ["LOG: Successful backup! Archive: `mc-2026-10-12_09_05.tar.gz`"]⟩

/-- The iteration result of the concrete quota-exceeded cycle below. -/
def quota_cycle_result : CycleResult :=
  ⟨"**ERROR**\nBackup directory has reached the maximum size of 2 GB", 1, [],
   some "Backup directory has reached the maximum size of 2 GB",
   ["LOG: **ERROR**\nBackup directory has reached the maximum size of 2 GB"]⟩

/-- Each walked subtree contributes exactly the sizes of its regular files:
the inductive core of the get_size correctness argument. -/
theorem walk_descend_sum (es : List FSEntry) :
    top_files_sum es +
      ((walk_descend es).map (fun fnames =>
        ((fnames.filter (fun f => !link_entry f)).map entry_size).sum)).sum
      = regular_size_list es := by
  induction es using walk_descend.induct with
  | case1 => simp [top_files_sum, walk_descend, regular_size_list]
  | case2 cs rest ih1 ih2 =>
      simp [top_files_sum, walk_descend, regular_size_list, dir_entry, link_entry,
        entry_size, List.filter_cons] at *
      omega
  | case3 n rest ih =>
      simp [top_files_sum, walk_descend, regular_size_list, dir_entry, link_entry,
        entry_size, List.filter_cons] at *
      omega
  | case4 b rest ih =>
      cases b <;>
        simp [top_files_sum, walk_descend, regular_size_list, dir_entry, link_entry,
          entry_size, List.filter_cons] at * <;> omega

/-- C9: for every directory tree, the size computed by the capacity check
(get_size, built on os.walk with followlinks False and an islink guard)
excludes symbolic links and equals the sum of the sizes of the regular
files reachable from the directory without following links. -/
theorem C9_get_size_spec (es : List FSEntry) :
    get_size es = regular_size_list es := by
  have h := walk_descend_sum es
  simp only [get_size, walk, List.map_cons, List.sum_cons, top_files_sum] at *
  omega

/-- The registered cleanup command and the compress command are distinct
command lines: their lengths differ. -/
theorem rm_command_ne_tar_command (config : Config) (now : Timestamp) :
    rm_command config now ≠ tar_command config now := by
  intro h
  have hl := congrArg String.length h
  simp only [rm_command, tar_command, String.length_append] at hl
  have h1 : (" && rm ").length = 7 := rfl
  have h2 : (" && tar -czf ").length = 13 := rfl
  have h3 : (" ").length = 1 := rfl
  omega

/-- The archive identifier always carries the tar.gz suffix, so it is
never the empty string. -/
theorem archive_name_of_ne_empty (config : Config) (now : Timestamp) :
    archive_name_of config now ≠ "" := by
  intro h
  have hl := congrArg String.length h
  simp only [archive_name_of, String.length_append] at hl
  have h1 : (".tar.gz").length = 7 := rfl
  have h2 : ("-").length = 1 := rfl
  have h3 : ("" : String).length = 0 := rfl
  omega

/-- The with-block body events contain neither close event: closes happen
only in the ExitStack unwind. -/
theorem before_step_no_close (config : Config) (env : RemoteEnv) (now : Timestamp) :
    REvent.scpClose ∉ (backup_before_step config env now).2.1 ∧
    REvent.sshClose ∉ (backup_before_step config env now).2.1 := by
  have htr : REvent.scpClose ∉ (backup_transfer_step config env now).2.1 ∧
      REvent.sshClose ∉ (backup_transfer_step config env now).2.1 := by
    cases hg : env.scp_get <;> simp [backup_transfer_step, hg]
  have haf : REvent.scpClose ∉ (backup_after_step config env now).2.1 ∧
      REvent.sshClose ∉ (backup_after_step config env now).2.1 := by
    unfold backup_after_step
    dsimp only
    split
    · split
      · simp
      · simp [htr.1, htr.2]
    · exact htr
  have hta : REvent.scpClose ∉ (backup_tar_step config env now).2.1 ∧
      REvent.sshClose ∉ (backup_tar_step config env now).2.1 := by
    unfold backup_tar_step
    dsimp only
    split
    · simp
    · simp [haf.1, haf.2]
  unfold backup_before_step
  dsimp only
  split
  · split
    · simp
    · simp [hta.1, hta.2]
  · exact hta

/-- Every with-block body outcome is either the archive identifier with no
error, or the empty string with an error. -/
theorem before_step_result (config : Config) (env : RemoteEnv) (now : Timestamp) :
    (backup_before_step config env now).1 = (archive_name_of config now, none) ∨
    ((backup_before_step config env now).1.1 = ""
      ∧ ((backup_before_step config env now).1.2).isSome = true) := by
  have htr : (backup_transfer_step config env now).1 = (archive_name_of config now, none) ∨
      ((backup_transfer_step config env now).1.1 = ""
        ∧ ((backup_transfer_step config env now).1.2).isSome = true) := by
    cases hg : env.scp_get <;> simp [backup_transfer_step, hg]
  have haf : (backup_after_step config env now).1 = (archive_name_of config now, none) ∨
      ((backup_after_step config env now).1.1 = ""
        ∧ ((backup_after_step config env now).1.2).isSome = true) := by
    unfold backup_after_step
    dsimp only
    split
    · split
      · simp
      · exact htr
    · exact htr
  have hta : (backup_tar_step config env now).1 = (archive_name_of config now, none) ∨
      ((backup_tar_step config env now).1.1 = ""
        ∧ ((backup_tar_step config env now).1.2).isSome = true) := by
    unfold backup_tar_step
    dsimp only
    split
    · simp
    · exact haf
  unfold backup_before_step
  dsimp only
  split
  · split
    · simp
    · exact hta
  · exact hta

/-- Unpacking a scheduler iteration that reached the sleep: its fields are
the message, interval choice, events and error of the iteration. -/
theorem main_step_eq_ok (config : Config) (size_result : Except String Nat)
    (renv : RemoteEnv) (now : Timestamp) (nenv : NotifyEnv) (r : CycleResult)
    (h : main_step config size_result renv now nenv = Except.ok r) :
    r.message = cycle_message config size_result renv now ∧
    r.sleep_time = (if (cycle_outcome config size_result renv now).1.2 = none
        then config.iteration_time else config.error_iteration_time) ∧
    r.backup_events = (cycle_outcome config size_result renv now).2 ∧
    r.cycle_error = (cycle_outcome config size_result renv now).1.2 := by
  unfold main_step at h
  dsimp only at h
  cases hn : notify (cycle_message config size_result renv now) config.webhook nenv with
  | error e => rw [hn] at h; cases h
  | ok logs =>
      rw [hn] at h
      have hr := Except.ok.inj h
      rw [← hr]
      simp

/-- C1: for every configuration with a positive quota (and a warning ratio
inside the configured invariant range (0, 1)) and every local directory
size, check_local computes ratio = sizeGB / quotaGB and returns an error
naming the quota and no warning when ratio >= 1, a warning carrying the
ratio rounded to 3 decimal digits and the quota and no error when
warningRatio < ratio < 1, and neither when ratio <= warningRatio. -/
theorem C1_check_local_thresholds (config : Config) (size : Nat)
    (hq : 0 < config.backup_allowed_gigabytes)
    (hw0 : 0 < config.backup_warning_ratio)
    (hw1 : config.backup_warning_ratio < 1) :
    (1 ≤ local_ratio config size →
      check_local config (Except.ok size) = (none, some (quota_error_message config))) ∧
    (config.backup_warning_ratio < local_ratio config size →
      local_ratio config size < 1 →
      check_local config (Except.ok size)
        = (some (ratio_warning_message config (local_ratio config size)), none)) ∧
    (local_ratio config size ≤ config.backup_warning_ratio →
      check_local config (Except.ok size) = (none, none)) := by
  refine ⟨?_, ?_, ?_⟩
  · intro h
    simp only [check_local]
    rw [if_pos h]
  · intro h1 h2
    simp only [check_local]
    rw [if_neg (not_le.mpr h2), if_pos h1]
  · intro h
    have h2 : local_ratio config size < 1 := lt_of_le_of_lt h hw1
    simp only [check_local]
    rw [if_neg (not_le.mpr h2), if_neg (not_lt.mpr h)]

/-- C1 witness: with a 2 GB quota, a 0.5 warning ratio and a directory of
1610612736 bytes (1.5 GB), the ratio is 0.75 and check_local returns the
warning and no error. -/
theorem C1_check_local_thresholds_witness :
    check_local base_config (Except.ok 1610612736)
      = (some (ratio_warning_message base_config (local_ratio base_config 1610612736)),
         none) :=
  (C1_check_local_thresholds base_config 1610612736
      (by norm_num [base_config])
      (by norm_num [base_config])
      (by norm_num [base_config])).2.1
    (by norm_num [base_config, local_ratio, gb_of_bytes])
    (by norm_num [base_config, local_ratio, gb_of_bytes])

/-- C7: a non-role mention with id 123 renders as an at-tag, a role
mention with id 456 renders as an at-ampersand-tag, the empty mention list
renders as the empty string with no leading newline, and a non-empty list
renders as a newline followed by the rendered tags joined with a comma
and a space. -/
theorem C7_mention_rendering :
    Mention.str ⟨"123", false⟩ = "<@123>" ∧
    Mention.str ⟨"456", true⟩ = "<@&456>" ∧
    get_mentions [] = "" ∧
    ∀ (m : Mention) (ms : List Mention),
      get_mentions (m :: ms)
        = "\n" ++ String.intercalate ", " ((m :: ms).map Mention.str) := by
  refine ⟨by decide, by decide, by decide, ?_⟩
  intro m ms
  simp [get_mentions]

/-- C10: the backup executor returns an empty archive identifier exactly
when it returns an error; when it returns no error the identifier is the
configured stem, a dash, the minute-resolution timestamp and the tar.gz
suffix, and in particular it is non-empty. -/
theorem C10_archive_empty_iff_error (config : Config) (env : RemoteEnv) (now : Timestamp) :
    ((backup config env now).1.1 = "" ↔ ((backup config env now).1.2).isSome = true) ∧
    ((backup config env now).1.2 = none →
      (backup config env now).1.1 = archive_name_of config now
        ∧ (backup config env now).1.1 ≠ "") := by
  cases hc : env.connect with
  | error e => simp [backup, hc]
  | ok u =>
    by_cases hcd : 0 < ((env.exec (cd_command config)).2).length
    · simp [backup, hc, hcd]
    · have hres := before_step_result config env now
      rcases hres with hres | hres
      · simp [backup, hc, hcd, hres, archive_name_of_ne_empty config now]
      · simp [backup, hc, hcd, hres.1, hres.2]
        intro hnone
        rw [hnone] at hres
        simp at hres

/-- C2: a backup cycle that passed the directory listing (so the archive
identifier was computed and the cleanup registered) and then failed still
carries the registered remote delete command in its trace, closes the
session exactly once, and its teardown is the optional file-transfer
sub-channel close, then the remote delete command, then the session close,
at the very end of the trace. -/
theorem C2_failed_cycle_teardown (config : Config) (env : RemoteEnv) (now : Timestamp)
    (hconn : env.connect = Except.ok ())
    (hcd : (env.exec (cd_command config)).2 = "")
    (hfail : ((backup config env now).1.2).isSome = true) :
    (backup config env now).2.count REvent.sshClose = 1 ∧
    REvent.cmd (rm_command config now) ∈ (backup config env now).2 ∧
    (∃ p, ((backup config env now).2
            = p ++ [REvent.cmd (rm_command config now), REvent.sshClose]
          ∧ REvent.scpClose ∉ p)
        ∨ ((backup config env now).2
            = p ++ [REvent.scpClose, REvent.cmd (rm_command config now), REvent.sshClose]
          ∧ REvent.scpClose ∉ p)) := by
  have hcd0 : ¬ 0 < ((env.exec (cd_command config)).2).length := by
    rw [hcd]; simp
  have hno := before_step_no_close config env now
  have htrace : (backup config env now).2
      = [REvent.connectAttempt, REvent.cmd (cd_command config)]
        ++ (backup_before_step config env now).2.1
        ++ (if (backup_before_step config env now).2.2 then [REvent.scpClose] else [])
        ++ [REvent.cmd (rm_command config now), REvent.sshClose] := by
    unfold backup
    rw [hconn]
    dsimp only
    rw [if_neg hcd0]
  refine ⟨?_, ?_, ?_⟩
  · rw [htrace]
    simp only [List.count_append, List.count_cons, List.count_nil]
    have h1 : (backup_before_step config env now).2.1.count REvent.sshClose = 0 :=
      List.count_eq_zero.mpr hno.2
    have h2 : (if (backup_before_step config env now).2.2
        then [REvent.scpClose] else []).count REvent.sshClose = 0 := by
      cases (backup_before_step config env now).2.2 <;> simp
    rw [h1, h2]
    simp
  · rw [htrace]; simp
  · refine ⟨[REvent.connectAttempt, REvent.cmd (cd_command config)]
        ++ (backup_before_step config env now).2.1, ?_⟩
    cases hb : (backup_before_step config env now).2.2
    · left
      constructor
      · rw [htrace, hb]; simp
      · simp [hno.1]
    · right
      constructor
      · rw [htrace, hb]; simp
      · simp [hno.1]

/-- C2 witness: with every command silent except the compress command, the
cycle fails after the archive identifier is computed; the trace carries
the delete command and ends with delete then a single session close. -/
theorem C2_failed_cycle_teardown_witness :
    (backup base_config renv_tar_fail t0).2.count REvent.sshClose = 1 ∧
    REvent.cmd (rm_command base_config t0) ∈ (backup base_config renv_tar_fail t0).2 ∧
    (∃ p, ((backup base_config renv_tar_fail t0).2
            = p ++ [REvent.cmd (rm_command base_config t0), REvent.sshClose]
          ∧ REvent.scpClose ∉ p)
        ∨ ((backup base_config renv_tar_fail t0).2
            = p ++ [REvent.scpClose, REvent.cmd (rm_command base_config t0), REvent.sshClose]
          ∧ REvent.scpClose ∉ p)) :=
  C2_failed_cycle_teardown base_config renv_tar_fail t0 rfl (by decide) (by decide)

/-- C3: when a pre-save command is configured and its remote run produces
non-empty stderr, the cycle returns the error identifying the hook and its
output, and after the hook command the trace holds only the registered
delete command and the session close: no compress command and no transfer
is ever issued afterward. -/
theorem C3_failing_pre_hook_short_circuits (config : Config) (env : RemoteEnv)
    (now : Timestamp)
    (hconn : env.connect = Except.ok ())
    (hcd : (env.exec (cd_command config)).2 = "")
    (hpre : 0 < config.server_before_save_command.length)
    (hfail : 0 < ((env.exec (before_command config)).2).length) :
    (backup config env now).1
      = ("", some ("Error while executing before_save_command \""
          ++ config.server_before_save_command ++ "\": "
          ++ (env.exec (before_command config)).2)) ∧
    (backup config env now).2
      = [REvent.connectAttempt, REvent.cmd (cd_command config),
         REvent.cmd (before_command config),
         REvent.cmd (rm_command config now), REvent.sshClose] ∧
    REvent.cmd (tar_command config now)
      ∉ [REvent.cmd (rm_command config now), REvent.sshClose] ∧
    (∀ rp lp, REvent.scpGet rp lp
      ∉ [REvent.cmd (rm_command config now), REvent.sshClose]) := by
  have hcd0 : ¬ 0 < ((env.exec (cd_command config)).2).length := by
    rw [hcd]; simp
  have hstep : backup_before_step config env now
      = (("", some ("Error while executing before_save_command \""
          ++ config.server_before_save_command ++ "\": "
          ++ (env.exec (before_command config)).2)),
         [REvent.cmd (before_command config)], false) := by
    unfold backup_before_step
    dsimp only
    rw [if_pos hpre, if_pos hfail]
  have hb : (backup config env now)
      = (("", some ("Error while executing before_save_command \""
          ++ config.server_before_save_command ++ "\": "
          ++ (env.exec (before_command config)).2)),
         [REvent.connectAttempt, REvent.cmd (cd_command config),
          REvent.cmd (before_command config),
          REvent.cmd (rm_command config now), REvent.sshClose]) := by
    unfold backup
    rw [hconn]
    dsimp only
    rw [if_neg hcd0, hstep]
    simp
  refine ⟨by rw [hb], by rw [hb], ?_, ?_⟩
  · simp [Ne.symm (rm_command_ne_tar_command config now)]
  · intro rp lp
    simp

/-- C3 witness: with a configured hook command whose run is the only one
writing to stderr, the cycle stops at the hook with the hook error and
issues only the delete command afterwards. -/
theorem C3_failing_pre_hook_short_circuits_witness :
    (backup hook_config renv_hook_fail t0).1
      = ("", some ("Error while executing before_save_command \""
          ++ hook_config.server_before_save_command ++ "\": "
          ++ (renv_hook_fail.exec (before_command hook_config)).2)) ∧
    (backup hook_config renv_hook_fail t0).2
      = [REvent.connectAttempt, REvent.cmd (cd_command hook_config),
         REvent.cmd (before_command hook_config),
         REvent.cmd (rm_command hook_config t0), REvent.sshClose] ∧
    REvent.cmd (tar_command hook_config t0)
      ∉ [REvent.cmd (rm_command hook_config t0), REvent.sshClose] ∧
    (∀ rp lp, REvent.scpGet rp lp
      ∉ [REvent.cmd (rm_command hook_config t0), REvent.sshClose]) :=
  C3_failing_pre_hook_short_circuits hook_config renv_hook_fail t0 rfl
    (by decide) (by decide) (by decide)

/-- C4: when the remote connect raises, the cycle returns immediately with
an error embedding the user and the host, sends no remote command at all
(in particular no delete-archive cleanup), and any scheduler iteration
built on that cycle that reaches its sleep uses the error interval. -/
theorem C4_connect_failure_cycle (config : Config) (renv : RemoteEnv) (now : Timestamp)
    (e : String) (hconn : renv.connect = Except.error e)
    (size_result : Except String Nat)
    (hlocal : (check_local config size_result).2 = none) :
    (backup config renv now).1
      = ("", some ("Error while connecting to " ++ config.server_user ++ "@"
          ++ config.server_host ++ ": " ++ e)) ∧
    (∀ c, REvent.cmd c ∉ (backup config renv now).2) ∧
    (∀ (nenv : NotifyEnv) (r : CycleResult),
        main_step config size_result renv now nenv = Except.ok r →
        r.sleep_time = config.error_iteration_time) := by
  have hb : backup config renv now
      = (("", some ("Error while connecting to " ++ config.server_user ++ "@"
          ++ config.server_host ++ ": " ++ e)),
         [REvent.connectAttempt, REvent.sshClose]) := by
    unfold backup
    rw [hconn]
  refine ⟨by rw [hb], ?_, ?_⟩
  · intro c
    rw [hb]
    simp
  · intro nenv r hstep
    have hfields := main_step_eq_ok config size_result renv now nenv r hstep
    have hout : (cycle_outcome config size_result renv now).1.2
        = some ("Error while connecting to " ++ config.server_user ++ "@"
          ++ config.server_host ++ ": " ++ e) := by
      unfold cycle_outcome
      dsimp only
      rw [if_pos hlocal, hb]
    rw [hfields.2.1, hout]
    simp

/-- C4 witness: with a concrete unreachable host the cycle error embeds
the user and the host, no command event occurs, and a completed iteration
sleeps for the error interval. -/
theorem C4_connect_failure_cycle_witness :
    (backup base_config renv_down t0).1
      = ("", some ("Error while connecting to " ++ base_config.server_user ++ "@"
          ++ base_config.server_host ++ ": " ++ "No route to host")) ∧
    (∀ c, REvent.cmd c ∉ (backup base_config renv_down t0).2) ∧
    (∀ (nenv : NotifyEnv) (r : CycleResult),
        main_step base_config (Except.ok 0) renv_down t0 nenv = Except.ok r →
        r.sleep_time = base_config.error_iteration_time) :=
  C4_connect_failure_cycle base_config renv_down t0 "No route to host" rfl
    (Except.ok 0)
    (by norm_num [check_local, local_ratio, gb_of_bytes, base_config])

/-- C5: in every scheduler iteration that reaches its sleep, the backup
executor runs exactly when the capacity check returned no error (otherwise
it is skipped, leaving no backup events, and the capacity error is the
cycle error); the sleep is the success interval when no error occurred
this cycle and the error interval otherwise; and whenever a warning is
present the message ends with the appended warning block, whatever the
success or error outcome. -/
theorem C5_scheduler_iteration (config : Config) (size_result : Except String Nat)
    (renv : RemoteEnv) (now : Timestamp) (nenv : NotifyEnv) (r : CycleResult)
    (hstep : main_step config size_result renv now nenv = Except.ok r) :
    ((check_local config size_result).2 = none →
        r.backup_events = (backup config renv now).2 ∧
        r.cycle_error = (backup config renv now).1.2) ∧
    ((check_local config size_result).2 ≠ none →
        r.backup_events = [] ∧
        r.cycle_error = (check_local config size_result).2) ∧
    (r.cycle_error = none → r.sleep_time = config.iteration_time) ∧
    (r.cycle_error ≠ none → r.sleep_time = config.error_iteration_time) ∧
    (∀ w, (check_local config size_result).1 = some w →
        ∃ base, r.message = base ++ "\n\n**WARNING**"
          ++ get_mentions config.warning_mentions ++ "\n" ++ w) := by
  have hfields := main_step_eq_ok config size_result renv now nenv r hstep
  refine ⟨?_, ?_, ?_, ?_, ?_⟩
  · intro hl
    rw [hfields.2.2.1, hfields.2.2.2]
    unfold cycle_outcome
    dsimp only
    rw [if_pos hl]
    exact ⟨rfl, rfl⟩
  · intro hl
    rw [hfields.2.2.1, hfields.2.2.2]
    unfold cycle_outcome
    dsimp only
    rw [if_neg hl]
    exact ⟨rfl, rfl⟩
  · intro hce
    rw [hfields.2.1]
    rw [hfields.2.2.2] at hce
    rw [if_pos hce]
  · intro hce
    rw [hfields.2.1]
    rw [hfields.2.2.2] at hce
    rw [if_neg hce]
  · intro w hw
    rw [hfields.1]
    unfold cycle_message
    dsimp only
    rw [hw]
    exact ⟨_, rfl⟩

/-- C5 witness: with a 6 GB directory against the 2 GB quota the capacity
check errors, the executor is skipped (no backup events), the capacity
error is the cycle error and the iteration sleeps the error interval. -/
theorem C5_scheduler_iteration_witness :
    ((check_local base_config (Except.ok 6442450944)).2 = none →
        quota_cycle_result.backup_events = (backup base_config renv_ok t0).2 ∧
        quota_cycle_result.cycle_error = (backup base_config renv_ok t0).1.2) ∧
    ((check_local base_config (Except.ok 6442450944)).2 ≠ none →
        quota_cycle_result.backup_events = [] ∧
        quota_cycle_result.cycle_error = (check_local base_config (Except.ok 6442450944)).2) ∧
    (quota_cycle_result.cycle_error = none →
        quota_cycle_result.sleep_time = base_config.iteration_time) ∧
    (quota_cycle_result.cycle_error ≠ none →
        quota_cycle_result.sleep_time = base_config.error_iteration_time) ∧
    (∀ w, (check_local base_config (Except.ok 6442450944)).1 = some w →
        ∃ base, quota_cycle_result.message = base ++ "\n\n**WARNING**"
          ++ get_mentions base_config.warning_mentions ++ "\n" ++ w) := by
  have hcl : check_local base_config (Except.ok 6442450944)
      = (none, some (quota_error_message base_config)) := by
    norm_num [check_local, local_ratio, gb_of_bytes, base_config]
  have hstep : main_step base_config (Except.ok 6442450944) renv_ok t0 nenv_ok
      = Except.ok quota_cycle_result := by
    simp only [main_step, cycle_message, cycle_outcome, notify, hcl]
    decide
  exact C5_scheduler_iteration base_config (Except.ok 6442450944) renv_ok t0 nenv_ok
    quota_cycle_result hstep

/-- C6 counterexample: a fully successful concrete cycle (no capacity
error, every executor step succeeds) whose notification message is not
the success header followed by the archive identifier alone: the code
wraps the identifier in backticks and, the capacity warning being
present, appends a warning block. -/
theorem C6_success_message_counterexample :
    (check_local base_config (Except.ok 1610612736)).2 = none ∧
    (backup base_config renv_ok t0).1.2 = none ∧
    Except.map CycleResult.message
        (main_step base_config (Except.ok 1610612736) renv_ok t0 nenv_ok)
      = Except.ok (cycle_message base_config (Except.ok 1610612736) renv_ok t0) ∧
    cycle_message base_config (Except.ok 1610612736) renv_ok t0
      ≠ "Successful backup! Archive: " ++ (backup base_config renv_ok t0).1.1 := by
  have hcl : check_local base_config (Except.ok 1610612736)
      = (some (ratio_warning_message base_config (local_ratio base_config 1610612736)),
         none) := by
    norm_num [check_local, local_ratio, gb_of_bytes, base_config]
  have hb : backup base_config renv_ok t0
      = (("mc-2026-10-12_09_05.tar.gz", none),
         [REvent.connectAttempt, REvent.cmd "cd /srv/../ && ls -la",
          REvent.cmd "cd /srv/../ && ls -la && tar -czf mc-2026-10-12_09_05.tar.gz /srv",
          REvent.scpGet "/srv/mc-2026-10-12_09_05.tar.gz" "/b", REvent.scpClose,
          REvent.cmd "cd /srv/../ && ls -la && rm mc-2026-10-12_09_05.tar.gz",
          REvent.sshClose]) := by
    decide
  have hn : ∀ (m : String) (ne : NotifyEnv),
      notify m base_config.webhook ne = Except.ok ["LOG: " ++ m] := by
    intro m ne
    simp [notify, base_config]
  have hm : cycle_message base_config (Except.ok 1610612736) renv_ok t0
      = "Successful backup! Archive: `" ++ (backup base_config renv_ok t0).1.1 ++ "`"
        ++ "\n\n**WARNING**" ++ get_mentions base_config.warning_mentions ++ "\n"
        ++ ratio_warning_message base_config (local_ratio base_config 1610612736) := by
    unfold cycle_message cycle_outcome
    dsimp only
    rw [hcl]
    dsimp only
    rw [hb]
    simp only []
    congr 3
  refine ⟨by rw [hcl], by rw [hb], ?_, ?_⟩
  · unfold main_step
    dsimp only
    rw [hn]
    rfl
  · intro h
    rw [hm] at h
    have hl := congrArg String.length h
    simp only [String.length_append] at hl
    have l1 : ("Successful backup! Archive: `").length = 29 := rfl
    have l2 : ("`").length = 1 := rfl
    have l3 : ("\n\n**WARNING**").length = 13 := rfl
    have l4 : ("\n").length = 1 := rfl
    have l5 : ("Successful backup! Archive: ").length = 28 := rfl
    omega

/-- C6 amended: in a fully successful cycle with no capacity warning, the
notification message is the success header followed by the archive
identifier wrapped in backticks; a present warning additionally appends
the warning block. -/
theorem C6_success_message_amended (config : Config) (size_result : Except String Nat)
    (renv : RemoteEnv) (now : Timestamp) (nenv : NotifyEnv) (r : CycleResult)
    (hwarn : (check_local config size_result).1 = none)
    (hlocal : (check_local config size_result).2 = none)
    (hbackup : (backup config renv now).1.2 = none)
    (hstep : main_step config size_result renv now nenv = Except.ok r) :
    r.message = "Successful backup! Archive: `" ++ (backup config renv now).1.1 ++ "`" := by
  have hfields := main_step_eq_ok config size_result renv now nenv r hstep
  rw [hfields.1]
  unfold cycle_message cycle_outcome
  dsimp only
  rw [hwarn, if_pos hlocal, hbackup]

/-- C6 amended witness: the concrete fully successful cycle without a
warning produces exactly the backticked success message. -/
theorem C6_success_message_amended_witness :
    main_step base_config (Except.ok 0) renv_ok t0 nenv_ok
      = Except.ok happy_cycle_result ∧
    happy_cycle_result.message
      = "Successful backup! Archive: `" ++ (backup base_config renv_ok t0).1.1 ++ "`" := by
  have hcl : check_local base_config (Except.ok 0) = (none, none) := by
    norm_num [check_local, local_ratio, gb_of_bytes, base_config]
  have hstep : main_step base_config (Except.ok 0) renv_ok t0 nenv_ok
      = Except.ok happy_cycle_result := by
    simp only [main_step, cycle_message, cycle_outcome, notify, hcl]
    decide
  exact ⟨hstep, C6_success_message_amended base_config (Except.ok 0) renv_ok t0 nenv_ok
    happy_cycle_result (by rw [hcl]) (by rw [hcl]) (by decide) hstep⟩

/-- C8 counterexample: a transport failure of the webhook post makes
notify return the raised exception instead of returning normally, and the
same exception escapes the scheduler iteration. -/
theorem C8_delivery_failure_counterexample :
    notify "hello" "https://wh" nenv_down = Except.error "Cannot connect to host" ∧
    main_step webhook_config (Except.ok 0) renv_ok t0 nenv_down
      = Except.error "Cannot connect to host" := by
  constructor
  · decide
  · have hcl : check_local webhook_config (Except.ok 0) = (none, none) := by
      norm_num [check_local, local_ratio, gb_of_bytes, webhook_config]
    simp only [main_step, cycle_message, cycle_outcome, notify, hcl]
    decide

/-- C8 amended: with a configured (non-empty) webhook, a transport-level
delivery failure is not caught: notify returns the raised exception and
the scheduler iteration propagates it instead of reaching its sleep; only
the logging before the post and the empty-webhook path return normally. -/
theorem C8_delivery_failure_escapes (config : Config) (size_result : Except String Nat)
    (renv : RemoteEnv) (now : Timestamp) (nenv : NotifyEnv) (e : String)
    (hw : config.webhook.length ≠ 0)
    (hpost : nenv.post config.webhook (cycle_message config size_result renv now)
        = Except.error e) :
    notify (cycle_message config size_result renv now) config.webhook nenv
        = Except.error e ∧
    main_step config size_result renv now nenv = Except.error e := by
  have hn : notify (cycle_message config size_result renv now) config.webhook nenv
      = Except.error e := by
    unfold notify
    dsimp only
    rw [if_neg hw, hpost]
  refine ⟨hn, ?_⟩
  unfold main_step
  dsimp only
  rw [hn]

/-- C8 witness: the concrete failing transport makes the concrete
iteration propagate the exception. -/
theorem C8_delivery_failure_escapes_witness :
    notify (cycle_message webhook_config (Except.ok 0) renv_ok t0)
        webhook_config.webhook nenv_down
      = Except.error "Cannot connect to host" ∧
    main_step webhook_config (Except.ok 0) renv_ok t0 nenv_down
      = Except.error "Cannot connect to host" :=
  C8_delivery_failure_escapes webhook_config (Except.ok 0) renv_ok t0 nenv_down
    "Cannot connect to host" (by decide) rfl
